import Mathlib

/-!
# The SQL Managed Instance data source

A shallow embedding of `internal/services/sql/sql_managed_instance_data_source.go`:
the schema returned by `dataSourceArmSqlMiServer` and the read handler
`dataSourceArmSqlMiServerRead`.

The read handler is stateful Go code: it reads and clears the identifier of a
`schema.ResourceData`, writes its fields with `d.Set`, and calls the API client.
Here it is a pure function from the initial `ResourceData` to the returned error,
the final `ResourceData`, and the chronological list of calls it made.

Everything the handler calls that is declared outside the source file (the
identifier parser, the API client, the plugin SDK's `d.Set`, the not-found test,
location normalisation, the `%q` verb) is a field of `Env`, so that the theorems
hold for every behaviour those collaborators may have.  The bounded context
(`timeouts.ForRead`, `defer cancel()`) only limits how long `client.Get` may take
and is not modelled: `Get` is a function that has already returned.
-/

namespace Sql

/-! ## Values and errors -/

/-- A Go `error`, identified with the text returned by its `Error()` method. -/
structure GoError where
  msg : String
deriving DecidableEq, Repr

/-- What `d.Set` receives as its value, after the SDK has dereferenced a pointer:
a nil pointer is `null`, which reads back as the zero value of the field. -/
inductive Value where
  | null
  | str (s : String)
  | int (n : Int)
  | bool (b : Bool)
  | list (items : List (List (String × String)))
  | map (entries : List (String × String))
deriving DecidableEq, Repr

/-- A `*string` (or string-typed enum) handed to `d.Set`. -/
def Value.ofString : Option String → Value
  | none => Value.null
  | some s => Value.str s

/-- A `*int32` handed to `d.Set`. -/
def Value.ofInt : Option Int → Value
  | none => Value.null
  | some n => Value.int n

/-- A `*bool` handed to `d.Set`. -/
def Value.ofBool : Option Bool → Value
  | none => Value.null
  | some b => Value.bool b

/-- Whether a value is the zero value of its type (nil, the empty string, 0, false,
the empty list, the empty map). -/
def Value.isZero : Value → Bool
  | Value.null => true
  | Value.str s => s == ""
  | Value.int n => n == 0
  | Value.bool b => !b
  | Value.list items => items.isEmpty
  | Value.map entries => entries.isEmpty

/-! ## The schema (`dataSourceArmSqlMiServer`) -/

/-- The value types of the plugin SDK that the schema uses. -/
inductive ValueType where
  | TypeBool
  | TypeInt
  | TypeString
  | TypeList
  | TypeMap
deriving DecidableEq, Repr

/-- The attributes of `schema.Schema` that the source sets.  `ValidateFunc` holds the
name of the validation function, `none` when the declaration has none. -/
structure Schema where
  Typ : ValueType
  Required : Bool := false
  Optional : Bool := false
  Computed : Bool := false
  ValidateFunc : Option String := none
deriving DecidableEq, Repr

/-- A field that is produced by the read and never accepted as input. -/
def Schema.computedOnly (s : Schema) : Bool :=
  s.Computed && !s.Required && !s.Optional

/-- Modelled from the spec: `managedInstanceIdentity{}.Schema()` is declared outside the
source file.  The spec lists `identity` among the computed-only fields, as a
list of at most one map. -/
def managedInstanceIdentitySchema : Schema :=
  { Typ := ValueType.TypeList, Computed := true }

/-- Modelled from the spec: `tags.Schema()` is declared outside the source file.  The
spec lists `tags` among the computed-only fields, as a string-to-string mapping. -/
def tagsSchema : Schema :=
  { Typ := ValueType.TypeMap, Computed := true }

/-- The `Schema` map of `dataSourceArmSqlMiServer`, in source order.  The two shared
lookup-field declarations `azure.SchemaLocationForDataSource()` and
`azure.SchemaResourceGroupNameForDataSource()` are declared outside the source
file and are arguments. -/
def dataSourceArmSqlMiServer (schemaLocationForDataSource schemaResourceGroupNameForDataSource : Schema) :
    List (String × Schema) :=
  [ ("name", { Typ := ValueType.TypeString, Required := true,
               ValidateFunc := some "validate.ValidateMsSqlServerName" }),
    ("location", schemaLocationForDataSource),
    ("resource_group_name", schemaResourceGroupNameForDataSource),
    ("sku_name", { Typ := ValueType.TypeString, Computed := true }),
    ("administrator_login", { Typ := ValueType.TypeString, Computed := true }),
    ("vcores", { Typ := ValueType.TypeInt, Computed := true }),
    ("storage_size_in_gb", { Typ := ValueType.TypeInt, Computed := true }),
    ("license_type", { Typ := ValueType.TypeString, Computed := true }),
    ("subnet_id", { Typ := ValueType.TypeString, Computed := true }),
    ("collation", { Typ := ValueType.TypeString, Computed := true }),
    ("public_data_endpoint_enabled", { Typ := ValueType.TypeBool, Computed := true }),
    ("minimum_tls_version", { Typ := ValueType.TypeString, Computed := true }),
    ("proxy_override", { Typ := ValueType.TypeString, Computed := true }),
    ("timezone_id", { Typ := ValueType.TypeString, Computed := true }),
    ("fqdn", { Typ := ValueType.TypeString, Computed := true }),
    ("dns_zone_partner_id", { Typ := ValueType.TypeString, Computed := true }),
    ("identity", managedInstanceIdentitySchema),
    ("storage_account_type", { Typ := ValueType.TypeString, Computed := true }),
    ("tags", tagsSchema) ]

/-! ## The API record -/

/-- The parsed identifier.  The source reads its `ResourceGroup` and `Name` and calls
its `ID()` method; the struct is declared in package `parse`, so the string that
`ID()` returns is kept as a field filled in by the parser. -/
structure ManagedInstanceId where
  ResourceGroup : String
  Name : String
  ID : String
deriving DecidableEq, Repr

/-- The `autorest.Response` embedded in the record; `StatusCode` is `none` when no
HTTP response was received. -/
structure AutorestResponse where
  StatusCode : Option Nat
deriving DecidableEq, Repr

/-- The record's `Sku`; the source reads its `Name`. -/
structure Sku where
  Name : Option String
deriving DecidableEq, Repr

/-- The record's `Identity`: its type and its principal and tenant references. -/
structure ResourceIdentity where
  Typ : String
  PrincipalID : String
  TenantID : String
deriving DecidableEq, Repr

/-- The record's `ManagedInstanceProperties`: the twelve properties the source reads,
and the DNS zone partner, which the source does not read.  The struct belongs
to the API client library; every property is optional here. -/
structure ManagedInstanceProperties where
  LicenseType : Option String
  AdministratorLogin : Option String
  SubnetID : Option String
  StorageSizeInGB : Option Int
  VCores : Option Int
  FullyQualifiedDomainName : Option String
  Collation : Option String
  PublicDataEndpointEnabled : Option Bool
  MinimalTLSVersion : Option String
  ProxyOverride : Option String
  TimezoneID : Option String
  StorageAccountType : Option String
  DNSZonePartner : Option String
deriving DecidableEq, Repr

/-- The record returned by `client.Get`. -/
structure ManagedInstance where
  Response : AutorestResponse
  Location : Option String
  Sku : Option Sku
  Identity : Option ResourceIdentity
  ManagedInstanceProperties : Option ManagedInstanceProperties
  Tags : List (String × String)
deriving DecidableEq, Repr

/-! ## Resource data and the calls of a read -/

/-- The part of `schema.ResourceData` the read touches: the persisted identifier and
the fields written with `d.Set`, the latest write first. -/
structure ResourceData where
  id : String
  fields : List (String × Value)
deriving DecidableEq, Repr

/-- The `d.Id()` accessor. -/
def ResourceData.Id (d : ResourceData) : String := d.id

/-- The value last written to a field, `none` when the field was never written. -/
def ResourceData.Get (d : ResourceData) (key : String) : Option Value :=
  d.fields.lookup key

/-- The calls a read makes, in the order it makes them. -/
inductive Event where
  | get (resourceGroupName managedInstanceName expand : String)
  | set (key : String) (value : Value)
  | setId (v : String)
  | log (line : String)
deriving DecidableEq, Repr

/-- Whether a call is a `d.Set`. -/
def Event.isSet : Event → Bool
  | Event.set _ _ => true
  | _ => false

/-- Whether a call is a `client.Get`. -/
def Event.isGet : Event → Bool
  | Event.get _ _ _ => true
  | _ => false

/-- The collaborators of the read that are declared outside the source file. -/
structure Env where
  /-- The parser `parse.ManagedInstanceID`. -/
  ManagedInstanceID : String → Except GoError ManagedInstanceId
  /-- The call `client.Get(ctx, resourceGroup, name, expand)`: the record and the error. -/
  Get : String → String → String → ManagedInstance × Option GoError
  /-- The test `utils.ResponseWasNotFound`. -/
  ResponseWasNotFound : AutorestResponse → Bool
  /-- The error `d.Set(key, value)` of the plugin SDK returns, `none` when it accepts
  the write. -/
  setError : String → Value → Option GoError
  /-- The function `azure.NormalizeLocation`. -/
  NormalizeLocation : String → String
  /-- The `%q` verb of package `fmt` applied to a string. -/
  quote : String → String

/-- The state threaded through a read: the resource data and the calls made so far. -/
structure Run where
  d : ResourceData
  trace : List Event
deriving DecidableEq, Repr

/-- The state after the call `d.Set(key, value)`: the call is recorded, and the write
happens when the SDK accepts it. -/
def Run.write (env : Env) (r : Run) (key : String) (value : Value) : Run :=
  { d := if (env.setError key value).isSome then r.d
         else { id := r.d.id, fields := (key, value) :: r.d.fields },
    trace := r.trace ++ [Event.set key value] }

/-- The call `d.Set(key, value)`: the state after it and the error the SDK returns. -/
def Run.Set (env : Env) (r : Run) (key : String) (value : Value) : Run × Option GoError :=
  (r.write env key value, env.setError key value)

/-- The call `d.SetId(v)`. -/
def Run.SetId (r : Run) (v : String) : Run :=
  { d := { id := v, fields := r.d.fields }, trace := r.trace ++ [Event.setId v] }

/-- Records a call that leaves the resource data alone. -/
def Run.emit (r : Run) (e : Event) : Run :=
  { d := r.d, trace := r.trace ++ [e] }

/-- Modelled from the spec: `flattenManagedInstanceIdentity` is declared outside the
source file.  The spec: an absent identity produces an empty list; a present
identity produces exactly one map containing its type and reference fields
(`type`, `principal_id`, `tenant_id`). -/
def flattenManagedInstanceIdentity : Option ResourceIdentity → Value
  | none => Value.list []
  | some identity =>
    Value.list [[("type", identity.Typ), ("principal_id", identity.PrincipalID),
                 ("tenant_id", identity.TenantID)]]

/-- Modelled from the spec: `tags.FlattenAndSet` is declared outside the source file.
The spec: the tags mapping is flattened with the shared convention, a mapping
to a mapping, and set on the output; an assignment that fails surfaces that
specific error. -/
def tagsFlattenAndSet (env : Env) (r : Run) (tagMap : List (String × String)) :
    Run × Option GoError :=
  r.Set env "tags" (Value.map tagMap)

/-- What a read leaves behind: the returned error (`none` for `nil`), the resource
data, and the calls made. -/
structure Outcome where
  err : Option GoError
  d : ResourceData
  trace : List Event
deriving DecidableEq, Repr

/-- Packs a returned error with the state reached. -/
def Run.done (r : Run) (err : Option GoError) : Outcome :=
  { err := err, d := r.d, trace := r.trace }

/-- The read handler `dataSourceArmSqlMiServerRead`.  A `d.Set` whose result the
source discards continues with the state alone (`.1`). -/
def dataSourceArmSqlMiServerRead (env : Env) (d : ResourceData) : Outcome :=
  let r : Run := { d := d, trace := [] }
  match env.ManagedInstanceID d.Id with
  | Except.error err => r.done (some err)
  | Except.ok id =>
    let r := r.emit (Event.get id.ResourceGroup id.Name "")
    match env.Get id.ResourceGroup id.Name "" with
    | (resp, some err) =>
      if env.ResponseWasNotFound resp.Response then
        let r := r.emit (Event.log ("[INFO] Error reading SQL Managed Instance "
          ++ env.quote d.Id ++ " - removing from state"))
        let r := r.SetId ""
        r.done none
      else
        r.done (some { msg := "reading SQL Managed Instance " ++ env.quote id.ID
          ++ ": " ++ err.msg })
    | (resp, none) =>
      let r := (r.Set env "name" (Value.str id.Name)).1
      let r := (r.Set env "resource_group_name" (Value.str id.ResourceGroup)).1
      let r := match resp.Location with
        | some location => (r.Set env "location" (Value.str (env.NormalizeLocation location))).1
        | none => r
      let r := match resp.Sku with
        | some sku => (r.Set env "sku_name" (Value.ofString sku.Name)).1
        | none => r
      match r.Set env "identity" (flattenManagedInstanceIdentity resp.Identity) with
      | (r, some err) => r.done (some { msg := "setting `identity`: " ++ err.msg })
      | (r, none) =>
        let r := match resp.ManagedInstanceProperties with
          | some props =>
            let r := (r.Set env "license_type" (Value.ofString props.LicenseType)).1
            let r := (r.Set env "administrator_login" (Value.ofString props.AdministratorLogin)).1
            let r := (r.Set env "subnet_id" (Value.ofString props.SubnetID)).1
            let r := (r.Set env "storage_size_in_gb" (Value.ofInt props.StorageSizeInGB)).1
            let r := (r.Set env "vcores" (Value.ofInt props.VCores)).1
            let r := (r.Set env "fqdn" (Value.ofString props.FullyQualifiedDomainName)).1
            let r := (r.Set env "collation" (Value.ofString props.Collation)).1
            let r := (r.Set env "public_data_endpoint_enabled"
              (Value.ofBool props.PublicDataEndpointEnabled)).1
            let r := (r.Set env "minimum_tls_version" (Value.ofString props.MinimalTLSVersion)).1
            let r := (r.Set env "proxy_override" (Value.ofString props.ProxyOverride)).1
            let r := (r.Set env "timezone_id" (Value.ofString props.TimezoneID)).1
            (r.Set env "storage_account_type" (Value.ofString props.StorageAccountType)).1
          | none => r
        match tagsFlattenAndSet env r resp.Tags with
        | (r, err) => r.done err

/-- Whether the read classifies the fetch as not-found: the identifier parses, `Get`
returns an error, and the response is a not-found response. -/
def classifiedNotFound (env : Env) (d : ResourceData) : Bool :=
  match env.ManagedInstanceID d.Id with
  | Except.error _ => false
  | Except.ok id =>
    match env.Get id.ResourceGroup id.Name "" with
    | (resp, some _) => env.ResponseWasNotFound resp.Response
    | (_, none) => false

/-- The field has been written, and it holds a zero value only if the value `src` the
record carries for it is zero (a nil pointer counts as zero). -/
def WrittenFrom (d : ResourceData) (key : String) (src : Value) : Prop :=
  ∃ v, d.Get key = some v ∧ (v.isZero = true → src.isZero = true)

/-! ## Sample collaborators for the closed examples -/

/-- The `%q` verb on printable text: the text between double quotes, with a backslash
before every double quote and backslash. -/
def goQuote (s : String) : String :=
  let dq := Char.ofNat 34
  let bs := Char.ofNat 92
  String.mk ([dq] ++ (s.data.map fun c => if c = dq ∨ c = bs then [bs, c] else [c]).flatten ++ [dq])

/-- The canonical identifier of the sample managed instance. -/
def sampleID : String :=
  "/subscriptions/sub1/resourceGroups/rg1/providers/Microsoft.Sql/managedInstances/mi1"

/-- The same resource with the resource-group segment key in lower case. -/
def sampleLowerID : String :=
  "/subscriptions/sub1/resourcegroups/rg1/providers/Microsoft.Sql/managedInstances/mi1"

/-- A sample parser: it accepts the sample managed instance under both spellings of
the resource-group segment key, and `ID()` renders the canonical spelling. -/
def sampleManagedInstanceID (input : String) : Except GoError ManagedInstanceId :=
  if input = sampleID ∨ input = sampleLowerID then
    Except.ok { ResourceGroup := "rg1", Name := "mi1", ID := sampleID }
  else
    Except.error { msg := "parsing the managed instance ID" }

/-- The properties of the sample record. -/
def sampleProperties : ManagedInstanceProperties :=
  { LicenseType := some "LicenseIncluded", AdministratorLogin := some "sqladmin",
    SubnetID := some "subnet1", StorageSizeInGB := some 32, VCores := some 8,
    FullyQualifiedDomainName := some "mi1.example.net", Collation := some "Latin1",
    PublicDataEndpointEnabled := some true, MinimalTLSVersion := some "1.2",
    ProxyOverride := some "Proxy", TimezoneID := some "UTC", StorageAccountType := some "GRS",
    DNSZonePartner := some "partner1" }

/-- The sample record: vcores 8, license type LicenseIncluded, one tag env = prod. -/
def sampleRecord : ManagedInstance :=
  { Response := { StatusCode := some 200 }, Location := some "West Europe",
    Sku := some { Name := some "GP_Gen5" },
    Identity := some { Typ := "SystemAssigned", PrincipalID := "p1", TenantID := "t1" },
    ManagedInstanceProperties := some sampleProperties, Tags := [("env", "prod")] }

/-- A record that carries only the response: no location, sku, identity or properties. -/
def bareRecord (status : Option Nat) : ManagedInstance :=
  { Response := { StatusCode := status }, Location := none, Sku := none, Identity := none,
    ManagedInstanceProperties := none, Tags := [] }

/-- A sample environment around a given `Get` result and `d.Set` behaviour: the sample
parser, a not-found test on status 404, lower-casing as location normalisation. -/
def sampleEnv (result : ManagedInstance × Option GoError) (setError : String → Value → Option GoError) :
    Env :=
  { ManagedInstanceID := sampleManagedInstanceID,
    Get := fun _ _ _ => result,
    ResponseWasNotFound := fun r => r.StatusCode == some 404,
    setError := setError,
    NormalizeLocation := fun s => String.mk (s.data.map Char.toLower),
    quote := goQuote }

/-- A `d.Set` that accepts every write. -/
def acceptAll : String → Value → Option GoError := fun _ _ => none

/-- A `d.Set` that rejects the writes of one field. -/
def rejectKey (bad : String) : String → Value → Option GoError :=
  fun key _ => if key = bad then some { msg := "invalid value for " ++ key } else none

/-- Resource data holding the canonical sample identifier and no field. -/
def sampleData : ResourceData := { id := sampleID, fields := [] }

/-- A string occurs in another as a contiguous run of characters. -/
def Contains (text piece : String) : Prop := piece.data <:+: text.data

instance (text piece : String) : Decidable (Contains text piece) :=
  inferInstanceAs (Decidable (piece.data <:+: text.data))

/-- Resource data holding the lower-case spelling of the sample identifier. -/
def sampleLowerData : ResourceData := { id := sampleLowerID, fields := [] }

/-- Resource data whose identifier the sample parser refuses. -/
def unparsableData : ResourceData := { id := "mi1", fields := [("name", Value.str "mi1")] }

/-- A `Get` that fails with a server error. -/
def failedGet : ManagedInstance × Option GoError :=
  (bareRecord (some 500), some { msg := "StatusCode=500" })

/-- A `Get` that fails because the instance does not exist. -/
def notFoundGet : ManagedInstance × Option GoError :=
  (bareRecord (some 404), some { msg := "StatusCode=404" })

/-- Resource data as a data source read first receives it: no identifier yet. -/
def freshData : ResourceData := { id := "", fields := [] }

/-- A `Get` that returns a record without location, sku, identity or properties. -/
def bareGet : ManagedInstance × Option GoError := (bareRecord (some 200), none)

/-! ## Theorems -/

@[simp] theorem Run.write_id (env : Env) (r : Run) (key : String) (value : Value) :
    (r.write env key value).d.id = r.d.id := by
  unfold Run.write
  dsimp only
  split <;> rfl

@[simp] theorem Run.write_trace (env : Env) (r : Run) (key : String) (value : Value) :
    (r.write env key value).trace = r.trace ++ [Event.set key value] := rfl

theorem contains_middle (a b c : String) : Contains (a ++ b ++ c) b := by
  unfold Contains
  simp only [String.data_append]
  exact ⟨a.data, c.data, rfl⟩

theorem contains_trans {a b c : String} (hab : Contains a b) (hbc : Contains b c) :
    Contains a c :=
  List.IsInfix.trans hbc hab


/-- C5.  When `parse.ManagedInstanceID` fails on the identifier, the read returns
exactly the parser's error and makes no call at all: in particular `client.Get`
is never invoked. -/
theorem read_parse_error_verbatim (env : Env) (d : ResourceData) (err : GoError)
    (hparse : env.ManagedInstanceID d.Id = Except.error err) :
    (dataSourceArmSqlMiServerRead env d).err = some err ∧
    (dataSourceArmSqlMiServerRead env d).trace = [] ∧
    ∀ e ∈ (dataSourceArmSqlMiServerRead env d).trace, e.isGet = false := by
  simp [dataSourceArmSqlMiServerRead, hparse, Run.done]

/-- C5 at a concrete input: the sample parser refuses the identifier `mi1`. -/
theorem read_parse_error_verbatim_witness :
    (sampleEnv (sampleRecord, none) acceptAll).ManagedInstanceID unparsableData.Id
      = Except.error { msg := "parsing the managed instance ID" } ∧
    (dataSourceArmSqlMiServerRead (sampleEnv (sampleRecord, none) acceptAll) unparsableData).err
      = some { msg := "parsing the managed instance ID" } ∧
    (dataSourceArmSqlMiServerRead (sampleEnv (sampleRecord, none) acceptAll) unparsableData).trace = [] ∧
    ∀ e ∈ (dataSourceArmSqlMiServerRead (sampleEnv (sampleRecord, none) acceptAll) unparsableData).trace,
      e.isGet = false :=
  ⟨rfl, read_parse_error_verbatim _ _ _ rfl⟩

/-- C2.  When the identifier parses and `Get` fails with a not-found response, the
read returns no error, writes no field (the fields are those held before and
no `d.Set` is called), and leaves the persisted identifier empty. -/
theorem read_not_found_clears_id (env : Env) (d : ResourceData) (id : ManagedInstanceId)
    (resp : ManagedInstance) (err : GoError)
    (hparse : env.ManagedInstanceID d.Id = Except.ok id)
    (hget : env.Get id.ResourceGroup id.Name "" = (resp, some err))
    (hnotFound : env.ResponseWasNotFound resp.Response = true) :
    (dataSourceArmSqlMiServerRead env d).err = none ∧
    (dataSourceArmSqlMiServerRead env d).d.fields = d.fields ∧
    (∀ e ∈ (dataSourceArmSqlMiServerRead env d).trace, e.isSet = false) ∧
    (dataSourceArmSqlMiServerRead env d).d.id = "" := by
  simp [dataSourceArmSqlMiServerRead, hparse, hget, hnotFound, Run.done, Run.emit, Run.SetId,
    Event.isSet]

/-- C2 at a concrete input: the sample instance answers 404. -/
theorem read_not_found_clears_id_witness :
    (dataSourceArmSqlMiServerRead (sampleEnv notFoundGet acceptAll) sampleData).err = none ∧
    (dataSourceArmSqlMiServerRead (sampleEnv notFoundGet acceptAll) sampleData).d.fields
      = sampleData.fields ∧
    (∀ e ∈ (dataSourceArmSqlMiServerRead (sampleEnv notFoundGet acceptAll) sampleData).trace,
      e.isSet = false) ∧
    (dataSourceArmSqlMiServerRead (sampleEnv notFoundGet acceptAll) sampleData).d.id = "" :=
  read_not_found_clears_id (sampleEnv notFoundGet acceptAll) sampleData
    { ResourceGroup := "rg1", Name := "mi1", ID := sampleID } (bareRecord (some 404))
    { msg := "StatusCode=404" } rfl rfl rfl

/-- C4.  When the read fails because the identifier does not parse, or because `Get`
fails with a response that is not a not-found response, it returns an error and
the resource data is what it was before: no field written, the identifier
unchanged, and neither `d.Set` nor `d.SetId` called. -/
theorem read_failure_leaves_state (env : Env) (d : ResourceData)
    (hfail : (∃ err, env.ManagedInstanceID d.Id = Except.error err) ∨
      (∃ id resp err, env.ManagedInstanceID d.Id = Except.ok id ∧
        env.Get id.ResourceGroup id.Name "" = (resp, some err) ∧
        env.ResponseWasNotFound resp.Response = false)) :
    (dataSourceArmSqlMiServerRead env d).err.isSome = true ∧
    (dataSourceArmSqlMiServerRead env d).d = d ∧
    ∀ e ∈ (dataSourceArmSqlMiServerRead env d).trace,
      e.isSet = false ∧ ∀ v, e ≠ Event.setId v := by
  rcases hfail with ⟨err, hparse⟩ | ⟨id, resp, err, hparse, hget, hnotFound⟩
  · simp [dataSourceArmSqlMiServerRead, hparse, Run.done]
  · simp [dataSourceArmSqlMiServerRead, hparse, hget, hnotFound, Run.done, Run.emit, Event.isSet]

/-- C4 at two concrete inputs: the sample instance answers 500, and an identifier the
parser refuses. -/
theorem read_failure_leaves_state_witness :
    ((dataSourceArmSqlMiServerRead (sampleEnv failedGet acceptAll) sampleData).err.isSome = true ∧
      (dataSourceArmSqlMiServerRead (sampleEnv failedGet acceptAll) sampleData).d = sampleData ∧
      ∀ e ∈ (dataSourceArmSqlMiServerRead (sampleEnv failedGet acceptAll) sampleData).trace,
        e.isSet = false ∧ ∀ v, e ≠ Event.setId v) ∧
    ((dataSourceArmSqlMiServerRead (sampleEnv failedGet acceptAll) unparsableData).err.isSome = true ∧
      (dataSourceArmSqlMiServerRead (sampleEnv failedGet acceptAll) unparsableData).d
        = unparsableData ∧
      ∀ e ∈ (dataSourceArmSqlMiServerRead (sampleEnv failedGet acceptAll) unparsableData).trace,
        e.isSet = false ∧ ∀ v, e ≠ Event.setId v) :=
  ⟨read_failure_leaves_state (sampleEnv failedGet acceptAll) sampleData
      (Or.inr ⟨{ ResourceGroup := "rg1", Name := "mi1", ID := sampleID }, bareRecord (some 500),
        { msg := "StatusCode=500" }, rfl, rfl, rfl⟩),
    read_failure_leaves_state (sampleEnv failedGet acceptAll) unparsableData
      (Or.inl ⟨{ msg := "parsing the managed instance ID" }, rfl⟩)⟩

/-- C3, as amended.  When the identifier parses and `Get` fails with a response that is
not a not-found response, the read returns the error whose message is
`reading SQL Managed Instance `, the `%q` rendering of `id.ID()` for the parsed
identifier, `: `, and the text of the underlying cause.  The message contains
that rendering and the cause, and it contains the original `d.Id()` string
whenever the rendering does. -/
theorem read_fetch_error_message (env : Env) (d : ResourceData) (id : ManagedInstanceId)
    (resp : ManagedInstance) (err : GoError)
    (hparse : env.ManagedInstanceID d.Id = Except.ok id)
    (hget : env.Get id.ResourceGroup id.Name "" = (resp, some err))
    (hnotFound : env.ResponseWasNotFound resp.Response = false) :
    ∃ m, (dataSourceArmSqlMiServerRead env d).err = some m ∧
      m.msg = "reading SQL Managed Instance " ++ env.quote id.ID ++ ": " ++ err.msg ∧
      Contains m.msg (env.quote id.ID) ∧
      Contains m.msg err.msg ∧
      (Contains (env.quote id.ID) d.Id → Contains m.msg d.Id) := by
  refine ⟨{ msg := "reading SQL Managed Instance " ++ env.quote id.ID ++ ": " ++ err.msg },
    ?_, rfl, ?_, ?_, ?_⟩
  · simp [dataSourceArmSqlMiServerRead, hparse, hget, hnotFound, Run.done]
  · have h := contains_middle "reading SQL Managed Instance " (env.quote id.ID) (": " ++ err.msg)
    simpa [String.append_assoc] using h
  · have h := contains_middle ("reading SQL Managed Instance " ++ env.quote id.ID ++ ": ") err.msg ""
    simpa using h
  · intro hid
    have h := contains_middle "reading SQL Managed Instance " (env.quote id.ID) (": " ++ err.msg)
    exact contains_trans (by simpa [String.append_assoc] using h) hid

/-- C3 at a concrete input: the canonical sample identifier, the instance answers 500. -/
theorem read_fetch_error_message_witness :
    ∃ m, (dataSourceArmSqlMiServerRead (sampleEnv failedGet acceptAll) sampleData).err = some m ∧
      m.msg = "reading SQL Managed Instance " ++ goQuote sampleID ++ ": " ++ "StatusCode=500" ∧
      Contains m.msg (goQuote sampleID) ∧
      Contains m.msg "StatusCode=500" ∧
      (Contains (goQuote sampleID) sampleData.Id → Contains m.msg sampleData.Id) :=
  read_fetch_error_message (sampleEnv failedGet acceptAll) sampleData
    { ResourceGroup := "rg1", Name := "mi1", ID := sampleID } (bareRecord (some 500))
    { msg := "StatusCode=500" } rfl rfl rfl

set_option maxRecDepth 100000 in
/-- C3 as stated fails: the identifier with the lower-case segment key parses, `Get`
fails with status 500, and the returned message names the canonical identifier,
which does not contain the string `d.Id()` held when the read started. -/
theorem read_fetch_error_omits_original_id :
    (sampleEnv failedGet acceptAll).ManagedInstanceID sampleLowerData.Id
      = Except.ok { ResourceGroup := "rg1", Name := "mi1", ID := sampleID } ∧
    (sampleEnv failedGet acceptAll).Get "rg1" "mi1" "" = (bareRecord (some 500), some { msg := "StatusCode=500" }) ∧
    (sampleEnv failedGet acceptAll).ResponseWasNotFound (bareRecord (some 500)).Response = false ∧
    (dataSourceArmSqlMiServerRead (sampleEnv failedGet acceptAll) sampleLowerData).err
      = some { msg := ("reading SQL Managed Instance " ++ goQuote sampleID ++ ": StatusCode=500") } ∧
    ¬ Contains ("reading SQL Managed Instance " ++ goQuote sampleID ++ ": StatusCode=500")
        sampleLowerData.Id :=
  ⟨rfl, rfl, rfl, by decide, by decide⟩

/-- C8, as amended.  On every path the persisted identifier after the read is the one
held before or the empty string; it differs from the one held before only when
the fetch was classified as not-found; and the only value the read ever passes
to `d.SetId` is the empty string. -/
theorem read_identifier_frame (env : Env) (d : ResourceData) :
    ((dataSourceArmSqlMiServerRead env d).d.id = d.id ∨
      (dataSourceArmSqlMiServerRead env d).d.id = "") ∧
    ((dataSourceArmSqlMiServerRead env d).d.id ≠ d.id → classifiedNotFound env d = true) ∧
    (∀ v, Event.setId v ∈ (dataSourceArmSqlMiServerRead env d).trace →
      v = "" ∧ classifiedNotFound env d = true) := by
  unfold dataSourceArmSqlMiServerRead classifiedNotFound
  cases hparse : env.ManagedInstanceID d.Id with
  | error err => simp [Run.done]
  | ok id =>
    rcases hget : env.Get id.ResourceGroup id.Name "" with ⟨resp, _ | err⟩
    · simp only [hget]
      cases resp.Location <;> cases resp.Sku <;> cases resp.ManagedInstanceProperties <;>
        cases hidentity : env.setError "identity" (flattenManagedInstanceIdentity resp.Identity) <;>
        simp [Run.done, Run.emit, tagsFlattenAndSet, Run.Set, hidentity]
    · simp only [hget]
      by_cases hnf : env.ResponseWasNotFound resp.Response = true
      · simp [hnf, Run.done, Run.emit, Run.SetId]
      · simp [hnf, Run.done, Run.emit]

/-- C8 as stated fails: a read that starts with the empty identifier, which the parser
refuses, ends with the empty identifier although no fetch was classified as
not-found (none was made). -/
theorem read_empty_id_without_not_found :
    (dataSourceArmSqlMiServerRead (sampleEnv (sampleRecord, none) acceptAll) freshData).d.id = "" ∧
    (dataSourceArmSqlMiServerRead (sampleEnv (sampleRecord, none) acceptAll) freshData).trace = [] ∧
    classifiedNotFound (sampleEnv (sampleRecord, none) acceptAll) freshData = false :=
  ⟨rfl, rfl, rfl⟩

/-- C10.  For every successfully fetched record the read assigns to `identity` the
value of `flattenManagedInstanceIdentity` on the record's identity, and no
other value; that value is the empty list when the identity is absent and a
list of exactly one map holding `type`, `principal_id` and `tenant_id` when it
is present. -/
theorem read_identity_flattened (env : Env) (d : ResourceData) (id : ManagedInstanceId)
    (resp : ManagedInstance)
    (hparse : env.ManagedInstanceID d.Id = Except.ok id)
    (hget : env.Get id.ResourceGroup id.Name "" = (resp, none)) :
    Event.set "identity" (flattenManagedInstanceIdentity resp.Identity)
      ∈ (dataSourceArmSqlMiServerRead env d).trace ∧
    (∀ v, Event.set "identity" v ∈ (dataSourceArmSqlMiServerRead env d).trace →
      v = flattenManagedInstanceIdentity resp.Identity) ∧
    (resp.Identity = none → flattenManagedInstanceIdentity resp.Identity = Value.list []) ∧
    (∀ identity, resp.Identity = some identity →
      flattenManagedInstanceIdentity resp.Identity =
        Value.list [[("type", identity.Typ), ("principal_id", identity.PrincipalID),
                     ("tenant_id", identity.TenantID)]]) := by
  refine ⟨?_, ?_, ?_, ?_⟩
  · unfold dataSourceArmSqlMiServerRead
    simp only [hparse, hget]
    cases resp.Location <;> cases resp.Sku <;> cases resp.ManagedInstanceProperties <;>
      cases hidentity : env.setError "identity" (flattenManagedInstanceIdentity resp.Identity) <;>
      simp [Run.done, Run.emit, tagsFlattenAndSet, Run.Set, hidentity]
  · unfold dataSourceArmSqlMiServerRead
    simp only [hparse, hget]
    cases resp.Location <;> cases resp.Sku <;> cases resp.ManagedInstanceProperties <;>
      cases hidentity : env.setError "identity" (flattenManagedInstanceIdentity resp.Identity) <;>
      simp [Run.done, Run.emit, tagsFlattenAndSet, Run.Set, hidentity]
  · intro h
    simp [h, flattenManagedInstanceIdentity]
  · intro identity h
    simp [h, flattenManagedInstanceIdentity]

/-- C10 at a concrete input: the sample record carries a system-assigned identity. -/
theorem read_identity_flattened_witness :
    Event.set "identity" (Value.list [[("type", "SystemAssigned"), ("principal_id", "p1"),
        ("tenant_id", "t1")]])
      ∈ (dataSourceArmSqlMiServerRead (sampleEnv (sampleRecord, none) acceptAll) sampleData).trace :=
  (read_identity_flattened (sampleEnv (sampleRecord, none) acceptAll) sampleData
    { ResourceGroup := "rg1", Name := "mi1", ID := sampleID } sampleRecord rfl rfl).1

/-- C9.  In the schema of `dataSourceArmSqlMiServer`, `name` is a required string field
with a validation function, and every field other than `name`,
`resource_group_name` and `location` is computed-only: marked Computed and
neither Required nor Optional.  Those fields are the sixteen the spec lists. -/
theorem schema_name_required_rest_computed (schemaLocation schemaResourceGroupName : Schema) :
    (∃ s, (dataSourceArmSqlMiServer schemaLocation schemaResourceGroupName).lookup "name" = some s ∧
      s.Typ = ValueType.TypeString ∧ s.Required = true ∧ s.ValidateFunc.isSome = true) ∧
    (∀ key s, (key, s) ∈ dataSourceArmSqlMiServer schemaLocation schemaResourceGroupName →
      key ≠ "name" → key ≠ "resource_group_name" → key ≠ "location" →
      s.Computed = true ∧ s.Required = false ∧ s.Optional = false ∧ s.computedOnly = true) ∧
    ((dataSourceArmSqlMiServer schemaLocation schemaResourceGroupName).map Prod.fst).filter
        (fun key => key ≠ "name" ∧ key ≠ "resource_group_name" ∧ key ≠ "location")
      = ["sku_name", "administrator_login", "vcores", "storage_size_in_gb", "license_type",
         "subnet_id", "collation", "public_data_endpoint_enabled", "minimum_tls_version",
         "proxy_override", "timezone_id", "fqdn", "dns_zone_partner_id", "identity",
         "storage_account_type", "tags"] := by
  refine ⟨⟨_, rfl, rfl, rfl, rfl⟩, ?_, rfl⟩
  intro key s hmem h1 h2 h3
  simp only [dataSourceArmSqlMiServer, List.mem_cons, Prod.mk.injEq, List.mem_singleton,
    List.not_mem_nil, or_false] at hmem
  rcases hmem with h | h | h | h | h | h | h | h | h | h | h | h | h | h | h | h | h | h | h
  all_goals first
    | exact absurd h.1 h1
    | exact absurd h.1 h2
    | exact absurd h.1 h3
    | (obtain ⟨-, rfl⟩ := h; exact ⟨rfl, rfl, rfl, rfl⟩)

/-- C7, as amended.  For every successfully fetched record whose location, sku and
properties are present, when the SDK accepts the writes (no `d.Set` returns an
error), the read returns no error and
leaves the output fields equal to the reference mapping of the record: the
twelve property fields hold the record's properties verbatim, `sku_name` the
sku's name, `tags` the record's tags, `location` the normalised location (and
`name` and `resource_group_name` the parsed identifier's parts). -/
theorem read_maps_record (env : Env) (d : ResourceData) (id : ManagedInstanceId)
    (resp : ManagedInstance) (location : String) (sku : Sku) (props : ManagedInstanceProperties)
    (hparse : env.ManagedInstanceID d.Id = Except.ok id)
    (hget : env.Get id.ResourceGroup id.Name "" = (resp, none))
    (hlocation : resp.Location = some location)
    (hsku : resp.Sku = some sku)
    (hprops : resp.ManagedInstanceProperties = some props)
    (hset : ∀ key value, env.setError key value = none) :
    (dataSourceArmSqlMiServerRead env d).err = none ∧
    (dataSourceArmSqlMiServerRead env d).d.Get "license_type" = some (Value.ofString props.LicenseType) ∧
    (dataSourceArmSqlMiServerRead env d).d.Get "administrator_login"
      = some (Value.ofString props.AdministratorLogin) ∧
    (dataSourceArmSqlMiServerRead env d).d.Get "subnet_id" = some (Value.ofString props.SubnetID) ∧
    (dataSourceArmSqlMiServerRead env d).d.Get "storage_size_in_gb"
      = some (Value.ofInt props.StorageSizeInGB) ∧
    (dataSourceArmSqlMiServerRead env d).d.Get "vcores" = some (Value.ofInt props.VCores) ∧
    (dataSourceArmSqlMiServerRead env d).d.Get "fqdn"
      = some (Value.ofString props.FullyQualifiedDomainName) ∧
    (dataSourceArmSqlMiServerRead env d).d.Get "collation" = some (Value.ofString props.Collation) ∧
    (dataSourceArmSqlMiServerRead env d).d.Get "public_data_endpoint_enabled"
      = some (Value.ofBool props.PublicDataEndpointEnabled) ∧
    (dataSourceArmSqlMiServerRead env d).d.Get "minimum_tls_version"
      = some (Value.ofString props.MinimalTLSVersion) ∧
    (dataSourceArmSqlMiServerRead env d).d.Get "proxy_override"
      = some (Value.ofString props.ProxyOverride) ∧
    (dataSourceArmSqlMiServerRead env d).d.Get "timezone_id" = some (Value.ofString props.TimezoneID) ∧
    (dataSourceArmSqlMiServerRead env d).d.Get "storage_account_type"
      = some (Value.ofString props.StorageAccountType) ∧
    (dataSourceArmSqlMiServerRead env d).d.Get "sku_name" = some (Value.ofString sku.Name) ∧
    (dataSourceArmSqlMiServerRead env d).d.Get "tags" = some (Value.map resp.Tags) ∧
    (dataSourceArmSqlMiServerRead env d).d.Get "location"
      = some (Value.str (env.NormalizeLocation location)) ∧
    (dataSourceArmSqlMiServerRead env d).d.Get "name" = some (Value.str id.Name) ∧
    (dataSourceArmSqlMiServerRead env d).d.Get "resource_group_name"
      = some (Value.str id.ResourceGroup) := by
  unfold dataSourceArmSqlMiServerRead
  simp only [hparse, hget, hlocation, hsku, hprops]
  simp [Run.Set, Run.write, Run.done, Run.emit, tagsFlattenAndSet, hset, ResourceData.Get,
    List.lookup]

/-- C7 at the spec's example: the identifier of instance `mi1` in resource group `rg1`,
a record with vcores 8, license type LicenseIncluded and the tag env = prod. -/
theorem read_maps_record_witness :
    (dataSourceArmSqlMiServerRead (sampleEnv (sampleRecord, none) acceptAll) sampleData).d.Get "vcores"
      = some (Value.int 8) ∧
    (dataSourceArmSqlMiServerRead (sampleEnv (sampleRecord, none) acceptAll) sampleData).d.Get
      "license_type" = some (Value.str "LicenseIncluded") ∧
    (dataSourceArmSqlMiServerRead (sampleEnv (sampleRecord, none) acceptAll) sampleData).d.Get "tags"
      = some (Value.map [("env", "prod")]) :=
  have h := read_maps_record (sampleEnv (sampleRecord, none) acceptAll) sampleData
    { ResourceGroup := "rg1", Name := "mi1", ID := sampleID } sampleRecord "West Europe"
    { Name := some "GP_Gen5" } sampleProperties rfl rfl rfl rfl rfl (fun _ _ => rfl)
  ⟨h.2.2.2.2.2.1, h.2.1, h.2.2.2.2.2.2.2.2.2.2.2.2.2.2.1⟩

/-- C7 as stated fails when the SDK rejects a write.  The sample record has its
location, sku and properties and is fetched without error.  When `d.Set`
rejects the value of `vcores`, the read returns no error and `vcores` is left
unwritten although the record carries 8; when `d.Set` rejects the value of
`identity`, the read stops with that error and `license_type`, `vcores` and
`tags` are left unwritten. -/
theorem read_rejected_write_leaves_field_unwritten :
    sampleRecord.Location = some "West Europe" ∧
    sampleRecord.Sku = some { Name := some "GP_Gen5" } ∧
    sampleRecord.ManagedInstanceProperties = some sampleProperties ∧
    sampleProperties.VCores = some 8 ∧
    (dataSourceArmSqlMiServerRead (sampleEnv (sampleRecord, none) (rejectKey "vcores")) sampleData).err
      = none ∧
    (dataSourceArmSqlMiServerRead (sampleEnv (sampleRecord, none) (rejectKey "vcores")) sampleData).d.Get
      "vcores" = none ∧
    (dataSourceArmSqlMiServerRead (sampleEnv (sampleRecord, none) (rejectKey "identity"))
        sampleData).err
      = some { msg := "setting `identity`: invalid value for identity" } ∧
    (dataSourceArmSqlMiServerRead (sampleEnv (sampleRecord, none) (rejectKey "identity"))
        sampleData).d.Get "license_type" = none ∧
    (dataSourceArmSqlMiServerRead (sampleEnv (sampleRecord, none) (rejectKey "identity"))
        sampleData).d.Get "vcores" = none ∧
    (dataSourceArmSqlMiServerRead (sampleEnv (sampleRecord, none) (rejectKey "identity"))
        sampleData).d.Get "tags" = none := by
  decide

/-- C1, as amended.  For every identifier that parses and every record `Get` returns
without error, with the SDK accepting the writes, the read returns no error
and: `identity` and `tags` have been written; `sku_name` has been written when
the record has a sku; the twelve property fields have been written when the
record has properties; and each of these fields holds a zero value only if the
record carries that zero value for it.  Nothing is said of
`dns_zone_partner_id`. -/
theorem read_populates_fields (env : Env) (d : ResourceData) (id : ManagedInstanceId)
    (resp : ManagedInstance)
    (hparse : env.ManagedInstanceID d.Id = Except.ok id)
    (hget : env.Get id.ResourceGroup id.Name "" = (resp, none))
    (hset : ∀ key value, env.setError key value = none) :
    (dataSourceArmSqlMiServerRead env d).err = none ∧
    WrittenFrom (dataSourceArmSqlMiServerRead env d).d "identity"
      (flattenManagedInstanceIdentity resp.Identity) ∧
    WrittenFrom (dataSourceArmSqlMiServerRead env d).d "tags" (Value.map resp.Tags) ∧
    (∀ sku, resp.Sku = some sku →
      WrittenFrom (dataSourceArmSqlMiServerRead env d).d "sku_name" (Value.ofString sku.Name)) ∧
    (∀ props, resp.ManagedInstanceProperties = some props →
      WrittenFrom (dataSourceArmSqlMiServerRead env d).d "license_type"
        (Value.ofString props.LicenseType) ∧
      WrittenFrom (dataSourceArmSqlMiServerRead env d).d "administrator_login"
        (Value.ofString props.AdministratorLogin) ∧
      WrittenFrom (dataSourceArmSqlMiServerRead env d).d "subnet_id" (Value.ofString props.SubnetID) ∧
      WrittenFrom (dataSourceArmSqlMiServerRead env d).d "storage_size_in_gb"
        (Value.ofInt props.StorageSizeInGB) ∧
      WrittenFrom (dataSourceArmSqlMiServerRead env d).d "vcores" (Value.ofInt props.VCores) ∧
      WrittenFrom (dataSourceArmSqlMiServerRead env d).d "fqdn"
        (Value.ofString props.FullyQualifiedDomainName) ∧
      WrittenFrom (dataSourceArmSqlMiServerRead env d).d "collation" (Value.ofString props.Collation) ∧
      WrittenFrom (dataSourceArmSqlMiServerRead env d).d "public_data_endpoint_enabled"
        (Value.ofBool props.PublicDataEndpointEnabled) ∧
      WrittenFrom (dataSourceArmSqlMiServerRead env d).d "minimum_tls_version"
        (Value.ofString props.MinimalTLSVersion) ∧
      WrittenFrom (dataSourceArmSqlMiServerRead env d).d "proxy_override"
        (Value.ofString props.ProxyOverride) ∧
      WrittenFrom (dataSourceArmSqlMiServerRead env d).d "timezone_id"
        (Value.ofString props.TimezoneID) ∧
      WrittenFrom (dataSourceArmSqlMiServerRead env d).d "storage_account_type"
        (Value.ofString props.StorageAccountType)) := by
  unfold dataSourceArmSqlMiServerRead WrittenFrom
  simp only [hparse, hget]
  cases resp.Location <;> cases resp.Sku <;> cases resp.ManagedInstanceProperties <;>
    simp [Run.Set, Run.write, Run.done, Run.emit, tagsFlattenAndSet, hset, ResourceData.Get,
      List.lookup]

/-- C1, as amended, at a concrete input: the sample record. -/
theorem read_populates_fields_witness :
    (dataSourceArmSqlMiServerRead (sampleEnv (sampleRecord, none) acceptAll) sampleData).err = none ∧
    WrittenFrom (dataSourceArmSqlMiServerRead (sampleEnv (sampleRecord, none) acceptAll) sampleData).d
      "identity" (Value.list [[("type", "SystemAssigned"), ("principal_id", "p1"), ("tenant_id", "t1")]]) ∧
    WrittenFrom (dataSourceArmSqlMiServerRead (sampleEnv (sampleRecord, none) acceptAll) sampleData).d
      "tags" (Value.map [("env", "prod")]) ∧
    WrittenFrom (dataSourceArmSqlMiServerRead (sampleEnv (sampleRecord, none) acceptAll) sampleData).d
      "sku_name" (Value.str "GP_Gen5") ∧
    WrittenFrom (dataSourceArmSqlMiServerRead (sampleEnv (sampleRecord, none) acceptAll) sampleData).d
      "vcores" (Value.int 8) :=
  have h := read_populates_fields (sampleEnv (sampleRecord, none) acceptAll) sampleData
    { ResourceGroup := "rg1", Name := "mi1", ID := sampleID } sampleRecord rfl rfl (fun _ _ => rfl)
  ⟨h.1, h.2.1, h.2.2.1, h.2.2.2.1 _ rfl, (h.2.2.2.2 _ rfl).2.2.2.2.1⟩

/-- C1 as stated fails twice.  A record with a non-empty DNS zone partner is read
without error and `dns_zone_partner_id` is never written; and a record without
sku and properties is read without error and `sku_name`, `vcores` and the other
property fields are never written. -/
theorem read_leaves_declared_fields_unwritten :
    (sampleRecord.ManagedInstanceProperties.map fun props => props.DNSZonePartner)
      = some (some "partner1") ∧
    (dataSourceArmSqlMiServerRead (sampleEnv (sampleRecord, none) acceptAll) sampleData).err = none ∧
    (dataSourceArmSqlMiServerRead (sampleEnv (sampleRecord, none) acceptAll) sampleData).d.Get
      "dns_zone_partner_id" = none ∧
    (dataSourceArmSqlMiServerRead (sampleEnv bareGet acceptAll) sampleData).err = none ∧
    (dataSourceArmSqlMiServerRead (sampleEnv bareGet acceptAll) sampleData).d.Get "sku_name" = none ∧
    (dataSourceArmSqlMiServerRead (sampleEnv bareGet acceptAll) sampleData).d.Get "vcores" = none ∧
    (dataSourceArmSqlMiServerRead (sampleEnv bareGet acceptAll) sampleData).d.Get "license_type"
      = none := by
  decide

/-- C6, as amended.  For every successfully fetched record: if the assignment of
`identity` fails, the read returns the error whose message is "setting
`identity`: " followed by that failure's text, the assignment of `identity` is
the last call it makes, and
only `name`, `resource_group_name`, `location`, `sku_name` and `identity` have
been assigned; if the assignment of `identity` succeeds, the read goes on to
the assignment of `tags`, which is its last call, and returns exactly what that
assignment returns.  The result of every other assignment is discarded. -/
theorem read_assignment_failures (env : Env) (d : ResourceData) (id : ManagedInstanceId)
    (resp : ManagedInstance)
    (hparse : env.ManagedInstanceID d.Id = Except.ok id)
    (hget : env.Get id.ResourceGroup id.Name "" = (resp, none)) :
    (∀ cause, env.setError "identity" (flattenManagedInstanceIdentity resp.Identity) = some cause →
      (dataSourceArmSqlMiServerRead env d).err
        = some { msg := "setting `identity`: " ++ cause.msg } ∧
      (dataSourceArmSqlMiServerRead env d).trace.getLast?
        = some (Event.set "identity" (flattenManagedInstanceIdentity resp.Identity)) ∧
      ∀ key value, Event.set key value ∈ (dataSourceArmSqlMiServerRead env d).trace →
        key ∈ ["name", "resource_group_name", "location", "sku_name", "identity"]) ∧
    (env.setError "identity" (flattenManagedInstanceIdentity resp.Identity) = none →
      (dataSourceArmSqlMiServerRead env d).err = env.setError "tags" (Value.map resp.Tags) ∧
      (dataSourceArmSqlMiServerRead env d).trace.getLast?
        = some (Event.set "tags" (Value.map resp.Tags))) := by
  unfold dataSourceArmSqlMiServerRead
  simp only [hparse, hget]
  constructor
  · intro cause hidentity
    cases resp.Location <;> cases resp.Sku <;>
      simp [Run.Set, Run.done, Run.emit, hidentity] <;>
      (intro key value hmem; tauto)
  · intro hidentity
    cases resp.Location <;> cases resp.Sku <;> cases resp.ManagedInstanceProperties <;>
      simp [Run.Set, Run.done, Run.emit, tagsFlattenAndSet, hidentity]

/-- C6, as amended, at a concrete input: the SDK rejects the value of `identity`. -/
theorem read_assignment_failures_witness :
    (dataSourceArmSqlMiServerRead (sampleEnv (sampleRecord, none) (rejectKey "identity")) sampleData).err
      = some { msg := "setting `identity`: " ++ "invalid value for identity" } ∧
    (dataSourceArmSqlMiServerRead (sampleEnv (sampleRecord, none) (rejectKey "identity"))
        sampleData).trace.getLast?
      = some (Event.set "identity" (flattenManagedInstanceIdentity sampleRecord.Identity)) ∧
    ∀ key value, Event.set key value ∈
        (dataSourceArmSqlMiServerRead (sampleEnv (sampleRecord, none) (rejectKey "identity"))
          sampleData).trace →
      key ∈ ["name", "resource_group_name", "location", "sku_name", "identity"] :=
  (read_assignment_failures (sampleEnv (sampleRecord, none) (rejectKey "identity")) sampleData
    { ResourceGroup := "rg1", Name := "mi1", ID := sampleID } sampleRecord rfl rfl).1
    { msg := "invalid value for identity" } rfl

/-- C6 as stated fails: the assignment of `name` fails, yet the read returns no error
and performs the assignments that come after it, such as that of `vcores`. -/
theorem read_ignores_name_failure :
    (sampleEnv (sampleRecord, none) (rejectKey "name")).setError "name" (Value.str "mi1")
      = some { msg := "invalid value for name" } ∧
    (dataSourceArmSqlMiServerRead (sampleEnv (sampleRecord, none) (rejectKey "name")) sampleData).err
      = none ∧
    Event.set "vcores" (Value.int 8)
      ∈ (dataSourceArmSqlMiServerRead (sampleEnv (sampleRecord, none) (rejectKey "name"))
          sampleData).trace ∧
    (dataSourceArmSqlMiServerRead (sampleEnv (sampleRecord, none) (rejectKey "name")) sampleData).d.Get
      "vcores" = some (Value.int 8) := by
  decide

end Sql
